import Mathlib

/-!
Verification of the `linux-futex` crate (src/lib.rs, src/op.rs, src/scope.rs,
src/sys.rs, src/timeout.rs, src/errors.rs) against its specification.

The crate is a thin facade over the Linux `SYS_futex` syscall.  The embedding
below models, straight from the source:

* the `libc` op-code / flag / errno constants the crate uses (numeric values
  of the Linux x86-64 ABI, which is what the `libc` crate resolves them to);
* `op.rs`: the bit-packed `Op`, `Cmp` and `OpAndCmp` words (a constructor
  that panics is modelled as returning `Option`, `none` standing for the
  panic);
* `scope.rs`: the `Private` / `Shared` scope markers and their flag;
* `timeout.rs`: `Duration` → `timespec` conversion and the `Timeout` trait
  (its two implementors `Instant` and `SystemTime` become the two
  constructors of an inductive type, each carrying the duration since the
  respective clock epoch that the source computes);
* `sys.rs`: the `FutexCall` builder.  Slot 4 of the kernel argument vector
  is a union of a timeout pointer and a plain integer (`val2` is stored into
  the `timeout` slot via a pointer cast); the slot is modelled as a sum type.
  Each facade function's builder chain is transcribed as a list of builder
  steps, folded over the `FutexCall` record exactly as the chained calls are;
* `lib.rs`: for every facade operation, the argument vector it builds and
  the classification of the raw syscall outcome into the typed result
  (`Error::panic`, which aborts the process, is modelled by the `fatal`
  outcome).
-/

/-! ## Constants (numeric values of the `libc` items the crate names) -/

def FUTEX_WAIT : Int := 0
def FUTEX_WAKE : Int := 1
def FUTEX_REQUEUE : Int := 3
def FUTEX_CMP_REQUEUE : Int := 4
def FUTEX_WAKE_OP : Int := 5
def FUTEX_LOCK_PI : Int := 6
def FUTEX_UNLOCK_PI : Int := 7
def FUTEX_TRYLOCK_PI : Int := 8
def FUTEX_WAIT_BITSET : Int := 9
def FUTEX_WAKE_BITSET : Int := 10
def FUTEX_WAIT_REQUEUE_PI : Int := 11
def FUTEX_CMP_REQUEUE_PI : Int := 12

/-- Function-local constant in `PiFutex::lock_pi_until` (src/lib.rs line 469). -/
def FUTEX_LOCK_PI2 : Int := 13

def FUTEX_PRIVATE_FLAG : Int := 128
def FUTEX_CLOCK_REALTIME : Int := 256

def EAGAIN : Int := 11
def EINTR : Int := 4
def ETIMEDOUT : Int := 110

/-! ## src/op.rs -/

/-- The bit-packed modify operation (`pub struct Op { bits: u32 }`). -/
structure Op where
  bits : Nat
  deriving DecidableEq

/-- The bit-packed comparison (`pub struct Cmp { bits: u32 }`). -/
structure Cmp where
  bits : Nat
  deriving DecidableEq

/-- The combined word (`pub struct OpAndCmp { bits: u32 }`). -/
structure OpAndCmp where
  bits : Nat
  deriving DecidableEq

/-- Private constructor `Op::new` (src/op.rs lines 75-83).  The source panics
when `value >= 1 << 12`; the panic is modelled as `none`. -/
def Op.new (op : Nat) (value : Nat) : Option Op :=
  if value ≥ 1 <<< 12 then none
  else some ⟨value <<< 12 ||| op <<< 28⟩

def Op.assign (arg : Nat) : Option Op := Op.new 0 arg
def Op.add (arg : Nat) : Option Op := Op.new 1 arg
def Op.or (arg : Nat) : Option Op := Op.new 2 arg
def Op.and_not (arg : Nat) : Option Op := Op.new 3 arg
def Op.xor (arg : Nat) : Option Op := Op.new 4 arg
def Op.assign_bit (bit : Nat) : Option Op := Op.new 8 bit
def Op.add_bit (bit : Nat) : Option Op := Op.new 9 bit
def Op.set_bit (bit : Nat) : Option Op := Op.new 10 bit
def Op.clear_bit (bit : Nat) : Option Op := Op.new 11 bit
def Op.toggle_bit (bit : Nat) : Option Op := Op.new 12 bit

/-- Private constructor `Cmp::new` (src/op.rs lines 153-161), panic modelled
as `none`. -/
def Cmp.new (op : Nat) (value : Nat) : Option Cmp :=
  if value ≥ 1 <<< 12 then none
  else some ⟨value ||| op <<< 24⟩

def Cmp.eq (value : Nat) : Option Cmp := Cmp.new 0 value
def Cmp.ne (value : Nat) : Option Cmp := Cmp.new 1 value
def Cmp.lt (value : Nat) : Option Cmp := Cmp.new 2 value
def Cmp.le (value : Nat) : Option Cmp := Cmp.new 3 value
def Cmp.gt (value : Nat) : Option Cmp := Cmp.new 4 value
def Cmp.ge (value : Nat) : Option Cmp := Cmp.new 5 value

/-- The plus operator combining an `Op` and a `Cmp`
(`impl Add<Cmp> for Op`, src/op.rs lines 202-210). -/
def Op.addCmp (self : Op) (cmp : Cmp) : OpAndCmp :=
  ⟨self.bits ||| cmp.bits⟩

instance : HAdd Op Cmp OpAndCmp := ⟨Op.addCmp⟩

/-- `OpAndCmp::from_raw_bits` (src/op.rs lines 192-194): no validation. -/
def OpAndCmp.from_raw_bits (bits : Nat) : OpAndCmp := ⟨bits⟩

/-- `OpAndCmp::raw_bits` (src/op.rs lines 197-199). -/
def OpAndCmp.raw_bits (self : OpAndCmp) : Nat := self.bits

/-- Modify op-code recovery, as performed by `impl Debug for Op`
(src/op.rs line 88: `self.bits >> 28`). -/
def decodeOpCode (bits : Nat) : Nat := bits >>> 28

/-- Modify argument recovery, as performed by `impl Debug for Op`
(src/op.rs line 101: `self.bits >> 12 & 0xFFF`). -/
def decodeOpArg (bits : Nat) : Nat := bits >>> 12 &&& 0xFFF

/-- Comparison op-code recovery, as performed by `impl Debug for Cmp`
(src/op.rs line 166: `self.bits >> 24 & 0xF`). -/
def decodeCmpCode (bits : Nat) : Nat := bits >>> 24 &&& 0xF

/-- Comparison argument recovery, as performed by `impl Debug for Cmp`
(src/op.rs line 175: `self.bits & 0xFFF`). -/
def decodeCmpArg (bits : Nat) : Nat := bits &&& 0xFFF

/-- The modify op-codes used by the ten public `Op` constructors. -/
def validOpCodes : List Nat := [0, 1, 2, 3, 4, 8, 9, 10, 11, 12]

/-- The comparison op-codes used by the six public `Cmp` constructors. -/
def validCmpCodes : List Nat := [0, 1, 2, 3, 4, 5]

/-! ### Bit-level helper lemmas for the packed word -/

lemma testBit_false_of_lt {x n i : Nat} (hx : x < 2 ^ n) (h : n ≤ i) :
    x.testBit i = false :=
  Nat.testBit_lt_two_pow
    (lt_of_lt_of_le hx (Nat.pow_le_pow_right (by norm_num) h))

/-- The word produced by `Op::new(o, a) + Cmp::new(c, b)`. -/
lemma packWord_eq (o c a b : Nat) :
    (Op.mk (a <<< 12 ||| o <<< 28)).addCmp ⟨b ||| c <<< 24⟩ =
      ⟨(a <<< 12 ||| o <<< 28) ||| (b ||| c <<< 24)⟩ := rfl

lemma pack_opCode (o c a b : Nat) (hc : c < 16) (ha : a < 4096) (hb : b < 4096) :
    ((a <<< 12 ||| o <<< 28) ||| (b ||| c <<< 24)) >>> 28 = o := by
  apply Nat.eq_of_testBit_eq
  intro i
  simp only [Nat.testBit_shiftRight, Nat.testBit_lor, Nat.testBit_shiftLeft]
  rw [testBit_false_of_lt (show a < 2 ^ 12 by omega) (show 12 ≤ 28 + i - 12 by omega),
    testBit_false_of_lt (show b < 2 ^ 12 by omega) (show 12 ≤ 28 + i by omega),
    testBit_false_of_lt (show c < 2 ^ 4 by omega) (show 4 ≤ 28 + i - 24 by omega)]
  simp [show 12 ≤ 28 + i by omega, show 24 ≤ 28 + i by omega,
    show 28 + i - 28 = i by omega]

lemma pack_opArg (o c a b : Nat) (ha : a < 4096) (hb : b < 4096) :
    (((a <<< 12 ||| o <<< 28) ||| (b ||| c <<< 24)) >>> 12) &&& 0xFFF = a := by
  apply Nat.eq_of_testBit_eq
  intro i
  rw [show (0xFFF : Nat) = 2 ^ 12 - 1 by norm_num]
  simp only [Nat.testBit_land, Nat.testBit_two_pow_sub_one,
    Nat.testBit_shiftRight, Nat.testBit_lor, Nat.testBit_shiftLeft]
  by_cases h : i < 12
  · rw [testBit_false_of_lt (show b < 2 ^ 12 by omega) (show 12 ≤ 12 + i by omega)]
    simp [show ¬ (28 ≤ 12 + i) by omega, show ¬ (24 ≤ 12 + i) by omega,
      show 12 ≤ 12 + i by omega, show 12 + i - 12 = i by omega, h]
  · rw [testBit_false_of_lt (show a < 2 ^ 12 by omega) (show 12 ≤ i by omega)]
    simp [h]

lemma pack_cmpCode (o c a b : Nat) (hc : c < 16) (ha : a < 4096) (hb : b < 4096) :
    (((a <<< 12 ||| o <<< 28) ||| (b ||| c <<< 24)) >>> 24) &&& 0xF = c := by
  apply Nat.eq_of_testBit_eq
  intro i
  rw [show (0xF : Nat) = 2 ^ 4 - 1 by norm_num]
  simp only [Nat.testBit_land, Nat.testBit_two_pow_sub_one,
    Nat.testBit_shiftRight, Nat.testBit_lor, Nat.testBit_shiftLeft]
  by_cases h : i < 4
  · rw [testBit_false_of_lt (show a < 2 ^ 12 by omega) (show 12 ≤ 24 + i - 12 by omega),
      testBit_false_of_lt (show b < 2 ^ 12 by omega) (show 12 ≤ 24 + i by omega)]
    simp [show ¬ (28 ≤ 24 + i) by omega, show 24 ≤ 24 + i by omega,
      show 24 + i - 24 = i by omega, h]
  · rw [testBit_false_of_lt (show c < 2 ^ 4 by omega) (show 4 ≤ i by omega)]
    simp [h]

lemma pack_cmpArg (o c a b : Nat) (hb : b < 4096) :
    ((a <<< 12 ||| o <<< 28) ||| (b ||| c <<< 24)) &&& 0xFFF = b := by
  apply Nat.eq_of_testBit_eq
  intro i
  rw [show (0xFFF : Nat) = 2 ^ 12 - 1 by norm_num]
  simp only [Nat.testBit_land, Nat.testBit_two_pow_sub_one,
    Nat.testBit_lor, Nat.testBit_shiftLeft]
  by_cases h : i < 12
  · simp [show ¬ (28 ≤ i) by omega, show ¬ (24 ≤ i) by omega,
      show ¬ (12 ≤ i) by omega, h]
  · rw [testBit_false_of_lt (show b < 2 ^ 12 by omega) (show 12 ≤ i by omega)]
    simp [h]

lemma opNew_eq_some {o a : Nat} {op : Op} (h : Op.new o a = some op) :
    a < 4096 ∧ op = ⟨a <<< 12 ||| o <<< 28⟩ := by
  unfold Op.new at h
  split at h
  · exact absurd h (by simp)
  · rename_i hlt
    refine ⟨by omega, ?_⟩
    exact (Option.some.injEq _ _ ▸ h).symm

lemma cmpNew_eq_some {c b : Nat} {cmp : Cmp} (h : Cmp.new c b = some cmp) :
    b < 4096 ∧ cmp = ⟨b ||| c <<< 24⟩ := by
  unfold Cmp.new at h
  split at h
  · exact absurd h (by simp)
  · rename_i hlt
    refine ⟨by omega, ?_⟩
    exact (Option.some.injEq _ _ ▸ h).symm

lemma opNew_isSome (o v : Nat) : (Op.new o v).isSome ↔ v < 4096 := by
  unfold Op.new
  split <;> rename_i h <;> simp <;> omega

lemma cmpNew_isSome (c v : Nat) : (Cmp.new c v).isSome ↔ v < 4096 := by
  unfold Cmp.new
  split <;> rename_i h <;> simp <;> omega

/-! ## src/scope.rs -/

/-- The two implementors of the `Scope` trait: `Private` and `Shared`. -/
inductive Scope where
  | Private
  | Shared
  deriving DecidableEq

/-- `Scope::futex_flag` (src/scope.rs lines 14-26): `FUTEX_PRIVATE_FLAG`
for `Private`, `0` for `Shared`. -/
def Scope.futex_flag : Scope → Int
  | .Private => FUTEX_PRIVATE_FLAG
  | .Shared => 0

/-! ## src/timeout.rs -/

/-- Rust `std::time::Duration`: whole seconds (`u64`) plus subsecond
nanoseconds, with the type invariants `secs < 2^64` and
`nanos < 1_000_000_000` that `Duration` maintains. -/
structure Duration where
  secs : Nat
  nanos : Nat
  secs_lt : secs < 2 ^ 64
  nanos_lt : nanos < 1000000000

/-- The kernel `libc::timespec` structure (`tv_sec : time_t = i64`,
`tv_nsec : c_long = i64`). -/
structure Timespec where
  tv_sec : Int
  tv_nsec : Int
  deriving DecidableEq

/-- Rust `u64 as i64` / `as time_t` cast (two's-complement wrap). -/
def u64_as_i64 (n : Nat) : Int :=
  if n % 2 ^ 64 < 2 ^ 63 then ((n % 2 ^ 64 : Nat) : Int)
  else ((n % 2 ^ 64 : Nat) : Int) - 2 ^ 64

/-- Rust `u32 as i32` cast (two's-complement wrap). -/
def u32_as_i32 (n : Nat) : Int :=
  if n % 2 ^ 32 < 2 ^ 31 then ((n % 2 ^ 32 : Nat) : Int)
  else ((n % 2 ^ 32 : Nat) : Int) - 2 ^ 32

/-- Free function `as_timespec` (src/timeout.rs lines 32-38):
`tv_sec = d.as_secs() as time_t`, `tv_nsec = d.subsec_nanos() as c_long`.
Placed in the `Duration` namespace because the `Timeout` trait method of
the same name below must be able to refer to it. -/
def Duration.as_timespec (d : Duration) : Timespec :=
  ⟨u64_as_i64 d.secs, (d.nanos : Int)⟩

/-- The two implementors of the `Timeout` trait (src/timeout.rs).
`Instant` carries the duration since the monotonic clock's zero point
(the source computes `self.duration_since(mem::zeroed())`); `SystemTime`
carries the duration since `UNIX_EPOCH` (the source computes
`self.duration_since(UNIX_EPOCH).unwrap()`, so only post-epoch times
reach the conversion). -/
inductive Timeout where
  | Instant (sinceEpoch : Duration)
  | SystemTime (sinceEpoch : Duration)

/-- `Timeout::as_timespec` (src/timeout.rs lines 10-30): clock-selector
flag `0` for `Instant`, `FUTEX_CLOCK_REALTIME` for `SystemTime`, paired
with the converted time structure. -/
def Timeout.as_timespec : Timeout → Int × Timespec
  | .Instant d => (0, Duration.as_timespec d)
  | .SystemTime d => (FUTEX_CLOCK_REALTIME, Duration.as_timespec d)

/-! ## src/sys.rs -/

/-- Slot 4 of the kernel argument vector (field `timeout` of `FutexCall`).
The source stores either a null pointer (initial state), a pointer to a
`timespec` (`FutexCall::timeout`), or a plain integer cast to a pointer
(`FutexCall::val2`).  The union-like reinterpretation is modelled as a sum. -/
inductive Slot4 where
  | null
  | ts (t : Timespec)
  | int (v : Int)
  deriving DecidableEq

/-- The six-field argument record `FutexCall` (src/sys.rs lines 4-12).
The fields are, in the kernel ABI slot order used by `FutexCall::call`:
`uaddr` (slot 1, a pointer modelled as an address), `futex_op` (slot 2),
`val` (slot 3), `timeout` (slot 4, the union slot), `uaddr2` (slot 5),
`val3` (slot 6). -/
structure FutexCall where
  uaddr : Nat
  futex_op : Int
  val : Int
  timeout : Slot4
  uaddr2 : Nat
  val3 : Int
  deriving DecidableEq

/-- `FutexCall::new` (src/sys.rs lines 16-25): null pointers and zeroes. -/
def FutexCall.new : FutexCall :=
  ⟨0, 0, 0, .null, 0, 0⟩

/-- One application of a builder method of `FutexCall` (src/sys.rs lines
27-63).  Each constructor is named after the source method; note that both
`timeout` and `val2` write the `timeout` field (the source's `val2` does
`timeout: val2 as *const _`). -/
inductive Step where
  | uaddr (a : Nat)
  | futex_op (v : Int)
  | val (v : Int)
  | timeout (t : Timespec)
  | val2 (v : Int)
  | uaddr2 (a : Nat)
  | val3 (v : Int)
  deriving DecidableEq

/-- Semantics of one builder method application. -/
def FutexCall.apply (c : FutexCall) : Step → FutexCall
  | .uaddr a => { c with uaddr := a }
  | .futex_op v => { c with futex_op := v }
  | .val v => { c with val := v }
  | .timeout t => { c with timeout := .ts t }
  | .val2 v => { c with timeout := .int v }
  | .uaddr2 a => { c with uaddr2 := a }
  | .val3 v => { c with val3 := v }

/-- A chained builder expression `FutexCall::new().m1(..)...mk(..)`,
folded left over the steps exactly as the method chain is. -/
def buildCall (steps : List Step) : FutexCall :=
  steps.foldl FutexCall.apply FutexCall.new

/-- Whether a builder chain contains a `timeout(..)` call. -/
def usesTimeoutPtr (steps : List Step) : Bool :=
  steps.any fun s => match s with | .timeout _ => true | _ => false

/-- Whether a builder chain contains a `val2(..)` call. -/
def usesVal2 (steps : List Step) : Bool :=
  steps.any fun s => match s with | .val2 _ => true | _ => false

/-- The raw result of `FutexCall::call` (src/sys.rs lines 66-81):
a non-negative count, or the errno taken from `__errno_location`
(`Error` is the errno newtype of src/sys.rs line 85). -/
inductive SysResult where
  | ok (v : Int)
  | err (errno : Int)
  deriving DecidableEq

/-- The classified outcome of one facade operation: the success value, a
typed error returned to the caller, or a process abort (`Error::panic`,
src/sys.rs lines 87-91, which never returns). -/
inductive Outcome (α ε : Type) where
  | ok (v : α)
  | err (e : ε)
  | fatal
  deriving DecidableEq

/-! ## src/errors.rs -/

inductive WrongValueError where
  | WrongValue
  deriving DecidableEq

inductive WaitError where
  | WrongValue
  | Interrupted
  deriving DecidableEq

inductive TimedWaitError where
  | WrongValue
  | Interrupted
  | TimedOut
  deriving DecidableEq

inductive TryAgainError where
  | TryAgain
  deriving DecidableEq

inductive TimedLockError where
  | TryAgain
  | TimedOut
  deriving DecidableEq

inductive TimedRequeueError where
  | WrongValue
  | TimedOut
  deriving DecidableEq

inductive RequeuePiError where
  | TryAgain
  deriving DecidableEq

inductive TimedRequeuePiError where
  | TryAgain
  | TimedOut
  deriving DecidableEq

/-! ## src/lib.rs — the facade operations

For each operation `f` of `Futex<S>` / `PiFutex<S>`:

* `fSteps` is its builder chain from the source, transcribed in order;
* `fCall` is the resulting argument record;
* `fClassify` is its match on the raw result (src/lib.rs), with
  `Error::panic` as `Outcome.fatal`.
-/

/-- Builder chain of `Futex::wait` (src/lib.rs lines 136-150). -/
def waitSteps (s : Scope) (uaddr : Nat) (expected_value : Int) : List Step :=
  [.futex_op (FUTEX_WAIT + s.futex_flag), .uaddr uaddr, .val expected_value]

def waitCall (s : Scope) (uaddr : Nat) (expected_value : Int) : FutexCall :=
  buildCall (waitSteps s uaddr expected_value)

def waitClassify : SysResult → Outcome Unit WaitError
  | .err e =>
    if e = EAGAIN then .err .WrongValue
    else if e = EINTR then .err .Interrupted
    else .fatal
  | .ok _ => .ok ()

/-- Builder chain of `Futex::wait_for` (src/lib.rs lines 160-177). -/
def waitForSteps (s : Scope) (uaddr : Nat) (expected_value : Int)
    (timeout : Duration) : List Step :=
  [.futex_op (FUTEX_WAIT + s.futex_flag), .uaddr uaddr, .val expected_value,
    .timeout timeout.as_timespec]

def waitForCall (s : Scope) (uaddr : Nat) (expected_value : Int)
    (timeout : Duration) : FutexCall :=
  buildCall (waitForSteps s uaddr expected_value timeout)

def waitForClassify : SysResult → Outcome Unit TimedWaitError
  | .err e =>
    if e = EAGAIN then .err .WrongValue
    else if e = EINTR then .err .Interrupted
    else if e = ETIMEDOUT then .err .TimedOut
    else .fatal
  | .ok _ => .ok ()

/-- Builder chain of `Futex::wake` (src/lib.rs lines 183-195). -/
def wakeSteps (s : Scope) (uaddr : Nat) (n : Int) : List Step :=
  [.futex_op (FUTEX_WAKE + s.futex_flag), .uaddr uaddr, .val n]

def wakeCall (s : Scope) (uaddr : Nat) (n : Int) : FutexCall :=
  buildCall (wakeSteps s uaddr n)

def wakeClassify : SysResult → Outcome Int Empty
  | .err _ => .fatal
  | .ok v => .ok v

/-- Builder chain of `Futex::requeue` (src/lib.rs lines 201-215). -/
def requeueSteps (s : Scope) (uaddr : Nat) (n_wake : Int) (toAddr : Nat)
    (n_requeue : Int) : List Step :=
  [.futex_op (FUTEX_REQUEUE + s.futex_flag), .uaddr uaddr, .uaddr2 toAddr,
    .val n_wake, .val2 n_requeue]

def requeueCall (s : Scope) (uaddr : Nat) (n_wake : Int) (toAddr : Nat)
    (n_requeue : Int) : FutexCall :=
  buildCall (requeueSteps s uaddr n_wake toAddr n_requeue)

def requeueClassify : SysResult → Outcome Int Empty
  | .err _ => .fatal
  | .ok v => .ok v

/-- Builder chain of `Futex::cmp_requeue` (src/lib.rs lines 224-246). -/
def cmpRequeueSteps (s : Scope) (uaddr : Nat) (expected_value : Int)
    (n_wake : Int) (toAddr : Nat) (n_requeue : Int) : List Step :=
  [.futex_op (FUTEX_CMP_REQUEUE + s.futex_flag), .uaddr uaddr, .uaddr2 toAddr,
    .val n_wake, .val2 n_requeue, .val3 expected_value]

def cmpRequeueCall (s : Scope) (uaddr : Nat) (expected_value : Int)
    (n_wake : Int) (toAddr : Nat) (n_requeue : Int) : FutexCall :=
  buildCall (cmpRequeueSteps s uaddr expected_value n_wake toAddr n_requeue)

def cmpRequeueClassify : SysResult → Outcome Int WrongValueError
  | .err e =>
    if e = EAGAIN then .err .WrongValue
    else .fatal
  | .ok v => .ok v

/-- Builder chain of `Futex::wait_bitset` (src/lib.rs lines 256-271);
note the source puts `uaddr` before `futex_op` here. -/
def waitBitsetSteps (s : Scope) (uaddr : Nat) (expected_value : Int)
    (bitset : Nat) : List Step :=
  [.uaddr uaddr, .futex_op (FUTEX_WAIT_BITSET + s.futex_flag),
    .val expected_value, .val3 (u32_as_i32 bitset)]

def waitBitsetCall (s : Scope) (uaddr : Nat) (expected_value : Int)
    (bitset : Nat) : FutexCall :=
  buildCall (waitBitsetSteps s uaddr expected_value bitset)

def waitBitsetClassify : SysResult → Outcome Unit WaitError
  | .err e =>
    if e = EAGAIN then .err .WrongValue
    else if e = EINTR then .err .Interrupted
    else .fatal
  | .ok _ => .ok ()

/-- Builder chain of `Futex::wait_bitset_until` (src/lib.rs lines 281-304). -/
def waitBitsetUntilSteps (s : Scope) (uaddr : Nat) (expected_value : Int)
    (bitset : Nat) (timeout : Timeout) : List Step :=
  [.uaddr uaddr,
    .futex_op (FUTEX_WAIT_BITSET + timeout.as_timespec.1 + s.futex_flag),
    .val expected_value, .val3 (u32_as_i32 bitset),
    .timeout timeout.as_timespec.2]

def waitBitsetUntilCall (s : Scope) (uaddr : Nat) (expected_value : Int)
    (bitset : Nat) (timeout : Timeout) : FutexCall :=
  buildCall (waitBitsetUntilSteps s uaddr expected_value bitset timeout)

def waitBitsetUntilClassify : SysResult → Outcome Unit TimedWaitError
  | .err e =>
    if e = EAGAIN then .err .WrongValue
    else if e = EINTR then .err .Interrupted
    else if e = ETIMEDOUT then .err .TimedOut
    else .fatal
  | .ok _ => .ok ()

/-- Builder chain of `Futex::wake_bitset` (src/lib.rs lines 315-328). -/
def wakeBitsetSteps (s : Scope) (uaddr : Nat) (n : Int) (bitset : Nat) :
    List Step :=
  [.futex_op (FUTEX_WAKE_BITSET + s.futex_flag), .uaddr uaddr, .val n,
    .val3 (u32_as_i32 bitset)]

def wakeBitsetCall (s : Scope) (uaddr : Nat) (n : Int) (bitset : Nat) :
    FutexCall :=
  buildCall (wakeBitsetSteps s uaddr n bitset)

def wakeBitsetClassify : SysResult → Outcome Int Empty
  | .err _ => .fatal
  | .ok v => .ok v

/-- Builder chain of `Futex::wake_op` (src/lib.rs lines 338-353). -/
def wakeOpSteps (s : Scope) (uaddr : Nat) (n : Int) (second : Nat)
    (op : OpAndCmp) (n2 : Int) : List Step :=
  [.futex_op (FUTEX_WAKE_OP + s.futex_flag), .uaddr uaddr, .uaddr2 second,
    .val n, .val2 n2, .val3 (u32_as_i32 op.raw_bits)]

def wakeOpCall (s : Scope) (uaddr : Nat) (n : Int) (second : Nat)
    (op : OpAndCmp) (n2 : Int) : FutexCall :=
  buildCall (wakeOpSteps s uaddr n second op n2)

def wakeOpClassify : SysResult → Outcome Int Empty
  | .err _ => .fatal
  | .ok v => .ok v

/-- Builder chain of `Futex::cmp_requeue_pi` (src/lib.rs lines 365-386);
the val slot is the literal `1`. -/
def cmpRequeuePiSteps (s : Scope) (uaddr : Nat) (expected_value : Int)
    (toAddr : Nat) (n_requeue : Int) : List Step :=
  [.futex_op (FUTEX_CMP_REQUEUE_PI + s.futex_flag), .uaddr uaddr, .uaddr2 toAddr,
    .val 1, .val2 n_requeue, .val3 expected_value]

def cmpRequeuePiCall (s : Scope) (uaddr : Nat) (expected_value : Int)
    (toAddr : Nat) (n_requeue : Int) : FutexCall :=
  buildCall (cmpRequeuePiSteps s uaddr expected_value toAddr n_requeue)

def cmpRequeuePiClassify : SysResult → Outcome Int TryAgainError
  | .err e =>
    if e = EAGAIN then .err .TryAgain
    else .fatal
  | .ok v => .ok v

/-- Builder chain of `Futex::wait_requeue_pi` (src/lib.rs lines 396-414). -/
def waitRequeuePiSteps (s : Scope) (uaddr : Nat) (expected_value : Int)
    (second : Nat) : List Step :=
  [.futex_op (FUTEX_WAIT_REQUEUE_PI + s.futex_flag), .uaddr uaddr,
    .uaddr2 second, .val expected_value]

def waitRequeuePiCall (s : Scope) (uaddr : Nat) (expected_value : Int)
    (second : Nat) : FutexCall :=
  buildCall (waitRequeuePiSteps s uaddr expected_value second)

def waitRequeuePiClassify : SysResult → Outcome Unit RequeuePiError
  | .err e =>
    if e = EAGAIN then .err .TryAgain
    else .fatal
  | .ok _ => .ok ()

/-- Builder chain of `Futex::wait_requeue_pi_until` (src/lib.rs lines
424-446). -/
def waitRequeuePiUntilSteps (s : Scope) (uaddr : Nat) (expected_value : Int)
    (second : Nat) (timeout : Timeout) : List Step :=
  [.futex_op (FUTEX_WAIT_REQUEUE_PI + timeout.as_timespec.1 + s.futex_flag),
    .uaddr uaddr, .uaddr2 second, .val expected_value,
    .timeout timeout.as_timespec.2]

def waitRequeuePiUntilCall (s : Scope) (uaddr : Nat) (expected_value : Int)
    (second : Nat) (timeout : Timeout) : FutexCall :=
  buildCall (waitRequeuePiUntilSteps s uaddr expected_value second timeout)

def waitRequeuePiUntilClassify : SysResult → Outcome Unit TimedRequeuePiError
  | .err e =>
    if e = EAGAIN then .err .TryAgain
    else if e = ETIMEDOUT then .err .TimedOut
    else .fatal
  | .ok _ => .ok ()

/-- Builder chain of `PiFutex::lock_pi` (src/lib.rs lines 452-464). -/
def lockPiSteps (s : Scope) (uaddr : Nat) : List Step :=
  [.futex_op (FUTEX_LOCK_PI + s.futex_flag), .uaddr uaddr]

def lockPiCall (s : Scope) (uaddr : Nat) : FutexCall :=
  buildCall (lockPiSteps s uaddr)

def lockPiClassify : SysResult → Outcome Unit TryAgainError
  | .err e =>
    if e = EAGAIN then .err .TryAgain
    else .fatal
  | .ok _ => .ok ()

/-- The op-code selection of `PiFutex::lock_pi_until` (src/lib.rs lines
469-476): `FUTEX_LOCK_PI` when the clock selector is
`FUTEX_CLOCK_REALTIME`, otherwise `FUTEX_LOCK_PI2`. -/
def lockPiUntilOp (clock : Int) : Int :=
  if clock = FUTEX_CLOCK_REALTIME then FUTEX_LOCK_PI else FUTEX_LOCK_PI2

/-- Builder chain of `PiFutex::lock_pi_until` (src/lib.rs lines 468-491). -/
def lockPiUntilSteps (s : Scope) (uaddr : Nat) (timeout : Timeout) :
    List Step :=
  [.futex_op (lockPiUntilOp timeout.as_timespec.1 + s.futex_flag),
    .uaddr uaddr, .timeout timeout.as_timespec.2]

def lockPiUntilCall (s : Scope) (uaddr : Nat) (timeout : Timeout) :
    FutexCall :=
  buildCall (lockPiUntilSteps s uaddr timeout)

def lockPiUntilClassify : SysResult → Outcome Unit TimedLockError
  | .err e =>
    if e = EAGAIN then .err .TryAgain
    else if e = ETIMEDOUT then .err .TimedOut
    else .fatal
  | .ok _ => .ok ()

/-- Builder chain of `PiFutex::trylock_pi` (src/lib.rs lines 495-507). -/
def trylockPiSteps (s : Scope) (uaddr : Nat) : List Step :=
  [.futex_op (FUTEX_TRYLOCK_PI + s.futex_flag), .uaddr uaddr]

def trylockPiCall (s : Scope) (uaddr : Nat) : FutexCall :=
  buildCall (trylockPiSteps s uaddr)

def trylockPiClassify : SysResult → Outcome Unit TryAgainError
  | .err e =>
    if e = EAGAIN then .err .TryAgain
    else .fatal
  | .ok _ => .ok ()

/-- Builder chain of `PiFutex::unlock_pi` (src/lib.rs lines 511-521). -/
def unlockPiSteps (s : Scope) (uaddr : Nat) : List Step :=
  [.futex_op (FUTEX_UNLOCK_PI + s.futex_flag), .uaddr uaddr]

def unlockPiCall (s : Scope) (uaddr : Nat) : FutexCall :=
  buildCall (unlockPiSteps s uaddr)

def unlockPiClassify : SysResult → Outcome Unit Empty
  | .err _ => .fatal
  | .ok _ => .ok ()

/-! ## Claim theorems -/

/-- Claim C1: for every facade operation, each raw kernel error code in that
operation's documented set is classified into the operation-specific typed
outcome (wait maps EAGAIN to WrongValue and EINTR to Interrupted, etc.), and
every raw error code outside that operation's documented set aborts the
process (`Error::panic`, modelled as `Outcome.fatal`) rather than being
returned to the caller as a typed error. -/
theorem error_classification_exhaustive :
    (waitClassify (.err EAGAIN) = .err .WrongValue) ∧
    (waitClassify (.err EINTR) = .err .Interrupted) ∧
    (∀ e : Int, e ≠ EAGAIN → e ≠ EINTR → waitClassify (.err e) = .fatal) ∧
    (waitForClassify (.err EAGAIN) = .err .WrongValue) ∧
    (waitForClassify (.err EINTR) = .err .Interrupted) ∧
    (waitForClassify (.err ETIMEDOUT) = .err .TimedOut) ∧
    (∀ e : Int, e ≠ EAGAIN → e ≠ EINTR → e ≠ ETIMEDOUT →
      waitForClassify (.err e) = .fatal) ∧
    (∀ e : Int, wakeClassify (.err e) = .fatal) ∧
    (∀ e : Int, requeueClassify (.err e) = .fatal) ∧
    (cmpRequeueClassify (.err EAGAIN) = .err .WrongValue) ∧
    (∀ e : Int, e ≠ EAGAIN → cmpRequeueClassify (.err e) = .fatal) ∧
    (waitBitsetClassify (.err EAGAIN) = .err .WrongValue) ∧
    (waitBitsetClassify (.err EINTR) = .err .Interrupted) ∧
    (∀ e : Int, e ≠ EAGAIN → e ≠ EINTR → waitBitsetClassify (.err e) = .fatal) ∧
    (waitBitsetUntilClassify (.err EAGAIN) = .err .WrongValue) ∧
    (waitBitsetUntilClassify (.err EINTR) = .err .Interrupted) ∧
    (waitBitsetUntilClassify (.err ETIMEDOUT) = .err .TimedOut) ∧
    (∀ e : Int, e ≠ EAGAIN → e ≠ EINTR → e ≠ ETIMEDOUT →
      waitBitsetUntilClassify (.err e) = .fatal) ∧
    (∀ e : Int, wakeBitsetClassify (.err e) = .fatal) ∧
    (∀ e : Int, wakeOpClassify (.err e) = .fatal) ∧
    (cmpRequeuePiClassify (.err EAGAIN) = .err .TryAgain) ∧
    (∀ e : Int, e ≠ EAGAIN → cmpRequeuePiClassify (.err e) = .fatal) ∧
    (waitRequeuePiClassify (.err EAGAIN) = .err .TryAgain) ∧
    (∀ e : Int, e ≠ EAGAIN → waitRequeuePiClassify (.err e) = .fatal) ∧
    (waitRequeuePiUntilClassify (.err EAGAIN) = .err .TryAgain) ∧
    (waitRequeuePiUntilClassify (.err ETIMEDOUT) = .err .TimedOut) ∧
    (∀ e : Int, e ≠ EAGAIN → e ≠ ETIMEDOUT →
      waitRequeuePiUntilClassify (.err e) = .fatal) ∧
    (lockPiClassify (.err EAGAIN) = .err .TryAgain) ∧
    (∀ e : Int, e ≠ EAGAIN → lockPiClassify (.err e) = .fatal) ∧
    (lockPiUntilClassify (.err EAGAIN) = .err .TryAgain) ∧
    (lockPiUntilClassify (.err ETIMEDOUT) = .err .TimedOut) ∧
    (∀ e : Int, e ≠ EAGAIN → e ≠ ETIMEDOUT →
      lockPiUntilClassify (.err e) = .fatal) ∧
    (trylockPiClassify (.err EAGAIN) = .err .TryAgain) ∧
    (∀ e : Int, e ≠ EAGAIN → trylockPiClassify (.err e) = .fatal) ∧
    (∀ e : Int, unlockPiClassify (.err e) = .fatal) :=
  ⟨by decide, by decide,
    fun e h1 h2 => by simp [waitClassify, h1, h2],
    by decide, by decide, by decide,
    fun e h1 h2 h3 => by simp [waitForClassify, h1, h2, h3],
    fun e => by simp [wakeClassify],
    fun e => by simp [requeueClassify],
    by decide,
    fun e h1 => by simp [cmpRequeueClassify, h1],
    by decide, by decide,
    fun e h1 h2 => by simp [waitBitsetClassify, h1, h2],
    by decide, by decide, by decide,
    fun e h1 h2 h3 => by simp [waitBitsetUntilClassify, h1, h2, h3],
    fun e => by simp [wakeBitsetClassify],
    fun e => by simp [wakeOpClassify],
    by decide,
    fun e h1 => by simp [cmpRequeuePiClassify, h1],
    by decide,
    fun e h1 => by simp [waitRequeuePiClassify, h1],
    by decide, by decide,
    fun e h1 h2 => by simp [waitRequeuePiUntilClassify, h1, h2],
    by decide,
    fun e h1 => by simp [lockPiClassify, h1],
    by decide, by decide,
    fun e h1 h2 => by simp [lockPiUntilClassify, h1, h2],
    by decide,
    fun e h1 => by simp [trylockPiClassify, h1],
    fun e => by simp [unlockPiClassify]⟩

/-- Witness for C1: the undocumented code 999 aborts a `wait`. -/
theorem error_classification_witness : waitClassify (.err 999) = .fatal := by
  obtain ⟨-, -, h, -⟩ := error_classification_exhaustive
  exact h 999 (by decide) (by decide)

/-- Claim C2: for every valid modify op-code, every valid comparison op-code
and every pair of arguments below 4096, combining the constructed `Op` and
`Cmp` with the plus operator yields a word from which both op-codes and both
arguments are recovered exactly (the two halves occupy disjoint bit
ranges of the 32-bit word). -/
theorem op_cmp_roundtrip (o c a b : Nat)
    (ho : o ∈ validOpCodes) (hc : c ∈ validCmpCodes)
    (op : Op) (cmp : Cmp)
    (hop : Op.new o a = some op) (hcmp : Cmp.new c b = some cmp) :
    decodeOpCode (op + cmp : OpAndCmp).raw_bits = o ∧
    decodeOpArg (op + cmp : OpAndCmp).raw_bits = a ∧
    decodeCmpCode (op + cmp : OpAndCmp).raw_bits = c ∧
    decodeCmpArg (op + cmp : OpAndCmp).raw_bits = b := by
  have ho16 : o < 16 := by simp [validOpCodes] at ho; omega
  have hc16 : c < 16 := by simp [validCmpCodes] at hc; omega
  obtain ⟨ha, rfl⟩ := opNew_eq_some hop
  obtain ⟨hb, rfl⟩ := cmpNew_eq_some hcmp
  exact ⟨pack_opCode o c a b hc16 ha hb, pack_opArg o c a b ha hb,
    pack_cmpCode o c a b hc16 ha hb, pack_cmpArg o c a b hb⟩

/-- Witness for C2: `Op::add(5) + Cmp::eq(7)` decodes back to
op-code 1, argument 5, comparison 0, argument 7. -/
theorem op_cmp_roundtrip_witness :
    decodeOpCode (Op.mk (5 <<< 12 ||| 1 <<< 28) + Cmp.mk (7 ||| 0 <<< 24) :
      OpAndCmp).raw_bits = 1 ∧
    decodeOpArg (Op.mk (5 <<< 12 ||| 1 <<< 28) + Cmp.mk (7 ||| 0 <<< 24) :
      OpAndCmp).raw_bits = 5 ∧
    decodeCmpCode (Op.mk (5 <<< 12 ||| 1 <<< 28) + Cmp.mk (7 ||| 0 <<< 24) :
      OpAndCmp).raw_bits = 0 ∧
    decodeCmpArg (Op.mk (5 <<< 12 ||| 1 <<< 28) + Cmp.mk (7 ||| 0 <<< 24) :
      OpAndCmp).raw_bits = 7 :=
  op_cmp_roundtrip 1 0 5 7 (by decide) (by decide)
    (Op.mk (5 <<< 12 ||| 1 <<< 28)) (Cmp.mk (7 ||| 0 <<< 24))
    (by decide) (by decide)

/-- Counterexample to claim C3 as stated: for a real-time-clocked deadline
(`SystemTime`), the op-code selected by `lock_pi_until` is `FUTEX_LOCK_PI`,
not the newer `FUTEX_LOCK_PI2`. -/
theorem lock_pi_until_realtime_counterexample :
    lockPiUntilOp (Timeout.as_timespec
      (.SystemTime ⟨0, 0, by norm_num, by norm_num⟩)).1 = FUTEX_LOCK_PI ∧
    (lockPiUntilCall .Private 0
      (.SystemTime ⟨0, 0, by norm_num, by norm_num⟩)).futex_op
      = FUTEX_LOCK_PI + FUTEX_PRIVATE_FLAG ∧
    FUTEX_LOCK_PI ≠ FUTEX_LOCK_PI2 := by
  refine ⟨rfl, rfl, by decide⟩

/-- Claim C3 as amended: `lock_pi_until` selects its kernel op-code from the
deadline's clock selector alone; a real-time (`SystemTime`) deadline selects
the older `FUTEX_LOCK_PI`, and a monotonic (`Instant`) deadline selects the
newer `FUTEX_LOCK_PI2`. -/
theorem lock_pi_until_clock_selection :
    ∀ (s : Scope) (uaddr : Nat) (d : Duration),
      lockPiUntilOp (Timeout.as_timespec (.SystemTime d)).1 = FUTEX_LOCK_PI ∧
      lockPiUntilOp (Timeout.as_timespec (.Instant d)).1 = FUTEX_LOCK_PI2 ∧
      (lockPiUntilCall s uaddr (.SystemTime d)).futex_op
        = FUTEX_LOCK_PI + s.futex_flag ∧
      (lockPiUntilCall s uaddr (.Instant d)).futex_op
        = FUTEX_LOCK_PI2 + s.futex_flag :=
  fun _ _ _ => ⟨rfl, rfl, rfl, rfl⟩

/-- Claim C4: for every facade operation, the op-code passed to the kernel
equals the base op-code combined with the scope flag (`FUTEX_PRIVATE_FLAG`
for `Private`, 0 for `Shared`), and this flag is the only difference
between the `Private` and `Shared` instantiations: the whole argument
record equals the `Shared` one with only `futex_op` replaced. -/
theorem scope_flag_only_difference :
    (Scope.Private.futex_flag = FUTEX_PRIVATE_FLAG) ∧
    (Scope.Shared.futex_flag = 0) ∧
    (∀ s u e, waitCall s u e =
      { waitCall .Shared u e with futex_op := FUTEX_WAIT + s.futex_flag }) ∧
    (∀ s u e d, waitForCall s u e d =
      { waitForCall .Shared u e d with futex_op := FUTEX_WAIT + s.futex_flag }) ∧
    (∀ s u n, wakeCall s u n =
      { wakeCall .Shared u n with futex_op := FUTEX_WAKE + s.futex_flag }) ∧
    (∀ s u nw t nr, requeueCall s u nw t nr =
      { requeueCall .Shared u nw t nr with
        futex_op := FUTEX_REQUEUE + s.futex_flag }) ∧
    (∀ s u e nw t nr, cmpRequeueCall s u e nw t nr =
      { cmpRequeueCall .Shared u e nw t nr with
        futex_op := FUTEX_CMP_REQUEUE + s.futex_flag }) ∧
    (∀ s u e bs, waitBitsetCall s u e bs =
      { waitBitsetCall .Shared u e bs with
        futex_op := FUTEX_WAIT_BITSET + s.futex_flag }) ∧
    (∀ s u e bs t, waitBitsetUntilCall s u e bs t =
      { waitBitsetUntilCall .Shared u e bs t with
        futex_op := FUTEX_WAIT_BITSET + (Timeout.as_timespec t).1
          + s.futex_flag }) ∧
    (∀ s u n bs, wakeBitsetCall s u n bs =
      { wakeBitsetCall .Shared u n bs with
        futex_op := FUTEX_WAKE_BITSET + s.futex_flag }) ∧
    (∀ s u n sec op n2, wakeOpCall s u n sec op n2 =
      { wakeOpCall .Shared u n sec op n2 with
        futex_op := FUTEX_WAKE_OP + s.futex_flag }) ∧
    (∀ s u e t nr, cmpRequeuePiCall s u e t nr =
      { cmpRequeuePiCall .Shared u e t nr with
        futex_op := FUTEX_CMP_REQUEUE_PI + s.futex_flag }) ∧
    (∀ s u e sec, waitRequeuePiCall s u e sec =
      { waitRequeuePiCall .Shared u e sec with
        futex_op := FUTEX_WAIT_REQUEUE_PI + s.futex_flag }) ∧
    (∀ s u e sec t, waitRequeuePiUntilCall s u e sec t =
      { waitRequeuePiUntilCall .Shared u e sec t with
        futex_op := FUTEX_WAIT_REQUEUE_PI + (Timeout.as_timespec t).1
          + s.futex_flag }) ∧
    (∀ s u, lockPiCall s u =
      { lockPiCall .Shared u with futex_op := FUTEX_LOCK_PI + s.futex_flag }) ∧
    (∀ s u t, lockPiUntilCall s u t =
      { lockPiUntilCall .Shared u t with
        futex_op := lockPiUntilOp (Timeout.as_timespec t).1
          + s.futex_flag }) ∧
    (∀ s u, trylockPiCall s u =
      { trylockPiCall .Shared u with
        futex_op := FUTEX_TRYLOCK_PI + s.futex_flag }) ∧
    (∀ s u, unlockPiCall s u =
      { unlockPiCall .Shared u with
        futex_op := FUTEX_UNLOCK_PI + s.futex_flag }) :=
  ⟨rfl, rfl,
    fun _ _ _ => rfl, fun _ _ _ _ => rfl, fun _ _ _ => rfl,
    fun _ _ _ _ _ => rfl, fun _ _ _ _ _ _ => rfl, fun _ _ _ _ => rfl,
    fun _ _ _ _ _ => rfl, fun _ _ _ _ => rfl, fun _ _ _ _ _ _ => rfl,
    fun _ _ _ _ _ => rfl, fun _ _ _ _ => rfl, fun _ _ _ _ _ => rfl,
    fun _ _ => rfl, fun _ _ _ => rfl, fun _ _ => rfl, fun _ _ => rfl⟩

/-- Claim C5: constructing any `Op` or any `Cmp` with an argument of 4096 or
greater fails fast and constructs no value, while every argument strictly
below 4096 constructs successfully. -/
theorem arg_range_fail_fast : ∀ v : Nat,
    ((Op.assign v).isSome ↔ v < 4096) ∧
    ((Op.add v).isSome ↔ v < 4096) ∧
    ((Op.or v).isSome ↔ v < 4096) ∧
    ((Op.and_not v).isSome ↔ v < 4096) ∧
    ((Op.xor v).isSome ↔ v < 4096) ∧
    ((Op.assign_bit v).isSome ↔ v < 4096) ∧
    ((Op.add_bit v).isSome ↔ v < 4096) ∧
    ((Op.set_bit v).isSome ↔ v < 4096) ∧
    ((Op.clear_bit v).isSome ↔ v < 4096) ∧
    ((Op.toggle_bit v).isSome ↔ v < 4096) ∧
    ((Cmp.eq v).isSome ↔ v < 4096) ∧
    ((Cmp.ne v).isSome ↔ v < 4096) ∧
    ((Cmp.lt v).isSome ↔ v < 4096) ∧
    ((Cmp.le v).isSome ↔ v < 4096) ∧
    ((Cmp.gt v).isSome ↔ v < 4096) ∧
    ((Cmp.ge v).isSome ↔ v < 4096) :=
  fun v =>
    ⟨opNew_isSome 0 v, opNew_isSome 1 v, opNew_isSome 2 v,
      opNew_isSome 3 v, opNew_isSome 4 v, opNew_isSome 8 v,
      opNew_isSome 9 v, opNew_isSome 10 v, opNew_isSome 11 v,
      opNew_isSome 12 v, cmpNew_isSome 0 v, cmpNew_isSome 1 v,
      cmpNew_isSome 2 v, cmpNew_isSome 3 v, cmpNew_isSome 4 v,
      cmpNew_isSome 5 v⟩

/-- Claim C6: `cmp_requeue_pi` always passes exactly 1 as the val slot
(number of waiters to wake); no parameter of the operation feeds it. -/
theorem cmp_requeue_pi_wakes_exactly_one
    (s : Scope) (uaddr : Nat) (expected_value : Int) (toAddr : Nat)
    (n_requeue : Int) :
    (cmpRequeuePiCall s uaddr expected_value toAddr n_requeue).val = 1 :=
  rfl

/-- Witness for C6 at concrete arguments. -/
theorem cmp_requeue_pi_wakes_exactly_one_witness :
    (cmpRequeuePiCall .Private 100 7 200 3).val = 1 :=
  cmp_requeue_pi_wakes_exactly_one .Private 100 7 200 3

/-- Claim C7: the `val2` builder method stores its integer into the same
physical slot as the `timeout` pointer (the `timeout` field, slot 4 of the
six-slot argument vector), leaving every other field unchanged; and no
facade operation's builder chain supplies both a timeout pointer and a
`val2` integer in a single kernel call. -/
theorem val2_shares_timeout_slot :
    (∀ (c : FutexCall) (v : Int),
      FutexCall.apply c (.val2 v) = { c with timeout := Slot4.int v }) ∧
    (∀ (c : FutexCall) (t : Timespec),
      FutexCall.apply c (.timeout t) = { c with timeout := Slot4.ts t }) ∧
    (∀ s u e, (usesTimeoutPtr (waitSteps s u e)
      && usesVal2 (waitSteps s u e)) = false) ∧
    (∀ s u e d, (usesTimeoutPtr (waitForSteps s u e d)
      && usesVal2 (waitForSteps s u e d)) = false) ∧
    (∀ s u n, (usesTimeoutPtr (wakeSteps s u n)
      && usesVal2 (wakeSteps s u n)) = false) ∧
    (∀ s u nw t nr, (usesTimeoutPtr (requeueSteps s u nw t nr)
      && usesVal2 (requeueSteps s u nw t nr)) = false) ∧
    (∀ s u e nw t nr, (usesTimeoutPtr (cmpRequeueSteps s u e nw t nr)
      && usesVal2 (cmpRequeueSteps s u e nw t nr)) = false) ∧
    (∀ s u e bs, (usesTimeoutPtr (waitBitsetSteps s u e bs)
      && usesVal2 (waitBitsetSteps s u e bs)) = false) ∧
    (∀ s u e bs t, (usesTimeoutPtr (waitBitsetUntilSteps s u e bs t)
      && usesVal2 (waitBitsetUntilSteps s u e bs t)) = false) ∧
    (∀ s u n bs, (usesTimeoutPtr (wakeBitsetSteps s u n bs)
      && usesVal2 (wakeBitsetSteps s u n bs)) = false) ∧
    (∀ s u n sec op n2, (usesTimeoutPtr (wakeOpSteps s u n sec op n2)
      && usesVal2 (wakeOpSteps s u n sec op n2)) = false) ∧
    (∀ s u e t nr, (usesTimeoutPtr (cmpRequeuePiSteps s u e t nr)
      && usesVal2 (cmpRequeuePiSteps s u e t nr)) = false) ∧
    (∀ s u e sec, (usesTimeoutPtr (waitRequeuePiSteps s u e sec)
      && usesVal2 (waitRequeuePiSteps s u e sec)) = false) ∧
    (∀ s u e sec t, (usesTimeoutPtr (waitRequeuePiUntilSteps s u e sec t)
      && usesVal2 (waitRequeuePiUntilSteps s u e sec t)) = false) ∧
    (∀ s u, (usesTimeoutPtr (lockPiSteps s u)
      && usesVal2 (lockPiSteps s u)) = false) ∧
    (∀ s u t, (usesTimeoutPtr (lockPiUntilSteps s u t)
      && usesVal2 (lockPiUntilSteps s u t)) = false) ∧
    (∀ s u, (usesTimeoutPtr (trylockPiSteps s u)
      && usesVal2 (trylockPiSteps s u)) = false) ∧
    (∀ s u, (usesTimeoutPtr (unlockPiSteps s u)
      && usesVal2 (unlockPiSteps s u)) = false) :=
  ⟨fun _ _ => rfl, fun _ _ => rfl,
    fun _ _ _ => rfl, fun _ _ _ _ => rfl, fun _ _ _ => rfl,
    fun _ _ _ _ _ => rfl, fun _ _ _ _ _ _ => rfl, fun _ _ _ _ => rfl,
    fun _ _ _ _ _ => rfl, fun _ _ _ _ => rfl, fun _ _ _ _ _ _ => rfl,
    fun _ _ _ _ _ => rfl, fun _ _ _ _ => rfl, fun _ _ _ _ _ => rfl,
    fun _ _ => rfl, fun _ _ _ => rfl, fun _ _ => rfl, fun _ _ => rfl⟩

/-- Claim C8: the timeout resolver returns clock-selector flag 0 for a
monotonic instant and the distinct `FUTEX_CLOCK_REALTIME` flag for a
real-time point, and the timed wait-family operations that take a deadline
combine exactly this returned flag into the op-code alongside the returned
time structure. -/
theorem timeout_resolver_clock_flags :
    (∀ d : Duration, Timeout.as_timespec (.Instant d) = (0, d.as_timespec)) ∧
    (∀ d : Duration, Timeout.as_timespec (.SystemTime d)
      = (FUTEX_CLOCK_REALTIME, d.as_timespec)) ∧
    ((0 : Int) ≠ FUTEX_CLOCK_REALTIME) ∧
    (∀ s u e bs t,
      (waitBitsetUntilCall s u e bs t).futex_op
        = FUTEX_WAIT_BITSET + (Timeout.as_timespec t).1 + s.futex_flag ∧
      (waitBitsetUntilCall s u e bs t).timeout
        = Slot4.ts (Timeout.as_timespec t).2) ∧
    (∀ s u e sec t,
      (waitRequeuePiUntilCall s u e sec t).futex_op
        = FUTEX_WAIT_REQUEUE_PI + (Timeout.as_timespec t).1 + s.futex_flag ∧
      (waitRequeuePiUntilCall s u e sec t).timeout
        = Slot4.ts (Timeout.as_timespec t).2) :=
  ⟨fun _ => rfl, fun _ => rfl, by decide,
    fun _ _ _ _ _ => ⟨rfl, rfl⟩, fun _ _ _ _ _ => ⟨rfl, rfl⟩⟩

lemma u64_as_i64_of_lt {n : Nat} (h : n < 2 ^ 63) : u64_as_i64 n = (n : Int) := by
  unfold u64_as_i64
  rw [Nat.mod_eq_of_lt (by omega)]
  exact if_pos h

/-- Counterexample to claim C9 as stated: a duration of `2^63` whole seconds
(representable, since `Duration` seconds are `u64`) does not convert to a
`tv_sec` equal to its whole seconds — the `as time_t` cast wraps it to the
negative value `-2^63`. -/
theorem as_timespec_wrap_counterexample :
    (Duration.as_timespec ⟨2 ^ 63, 0, by norm_num, by norm_num⟩).tv_sec
      = -(2 ^ 63) ∧
    (Duration.as_timespec ⟨2 ^ 63, 0, by norm_num, by norm_num⟩).tv_sec
      ≠ ((2 ^ 63 : Nat) : Int) := by
  constructor <;> decide

/-- Claim C9 as amended: for every duration whose whole-second count fits
the kernel time type (is below `2^63`), conversion yields `tv_sec` equal to
the whole seconds and `tv_nsec` equal to the subsecond nanoseconds
(`tv_nsec` is always in `[0, 1e9)`, for every duration); a duration of 1.5
seconds yields seconds 1 and nanoseconds 500000000; and the pair determines
the original duration exactly on such durations. -/
theorem duration_as_timespec_exact :
    (∀ d : Duration, (d.as_timespec).tv_nsec = (d.nanos : Int) ∧
      0 ≤ (d.as_timespec).tv_nsec ∧
      (d.as_timespec).tv_nsec < 1000000000) ∧
    (∀ d : Duration, d.secs < 2 ^ 63 → (d.as_timespec).tv_sec = (d.secs : Int)) ∧
    (Duration.as_timespec ⟨1, 500000000, by norm_num, by norm_num⟩
      = ⟨1, 500000000⟩) ∧
    (∀ d1 d2 : Duration, d1.secs < 2 ^ 63 → d2.secs < 2 ^ 63 →
      d1.as_timespec = d2.as_timespec → d1 = d2) := by
  refine ⟨?_, ?_, by decide, ?_⟩
  · intro d
    refine ⟨rfl, Int.ofNat_nonneg _, ?_⟩
    show (d.nanos : Int) < 1000000000
    exact_mod_cast d.nanos_lt
  · intro d h
    exact u64_as_i64_of_lt h
  · intro d1 d2 h1 h2 heq
    have hsec : u64_as_i64 d1.secs = u64_as_i64 d2.secs :=
      congrArg Timespec.tv_sec heq
    rw [u64_as_i64_of_lt h1, u64_as_i64_of_lt h2] at hsec
    have hsecs : d1.secs = d2.secs := by exact_mod_cast hsec
    have hns : (d1.nanos : Int) = (d2.nanos : Int) :=
      congrArg Timespec.tv_nsec heq
    have hnanos : d1.nanos = d2.nanos := by exact_mod_cast hns
    cases d1
    cases d2
    simp only at hsecs hnanos
    subst hsecs
    subst hnanos
    rfl

/-- Witness for C9 (amended): the duration 3 s + 7 ns converts to
`tv_sec = 3`. -/
theorem duration_as_timespec_exact_witness :
    (Duration.as_timespec ⟨3, 7, by norm_num, by norm_num⟩).tv_sec = 3 :=
  duration_as_timespec_exact.2.1 ⟨3, 7, by norm_num, by norm_num⟩ (by norm_num)

/-- Claim C10: `from_raw_bits` followed by `raw_bits` is the identity on
every 32-bit word, and `from_raw_bits` performs no range validation: it
also accepts words (such as `5 <<< 28`, whose modify op-code nibble is 5)
that no `Op::new` / `Cmp::new` constructor pair can produce, bypassing
their fail-fast check. -/
theorem from_raw_bits_roundtrip :
    (∀ b : Nat, b < 2 ^ 32 → (OpAndCmp.from_raw_bits b).raw_bits = b) ∧
    ((OpAndCmp.from_raw_bits (5 <<< 28)).raw_bits = 5 <<< 28) ∧
    (∀ (o c a b : Nat) (op : Op) (cmp : Cmp),
      o ∈ validOpCodes → c ∈ validCmpCodes →
      Op.new o a = some op → Cmp.new c b = some cmp →
      (op + cmp : OpAndCmp).raw_bits
        ≠ (OpAndCmp.from_raw_bits (5 <<< 28)).raw_bits) := by
  refine ⟨fun b _ => rfl, rfl, ?_⟩
  intro o c a b op cmp ho hc hop hcmp hEq
  have hc16 : c < 16 := by simp [validCmpCodes] at hc; omega
  obtain ⟨ha, rfl⟩ := opNew_eq_some hop
  obtain ⟨hb, rfl⟩ := cmpNew_eq_some hcmp
  have hcode : decodeOpCode ((Op.mk (a <<< 12 ||| o <<< 28)
      + Cmp.mk (b ||| c <<< 24) : OpAndCmp).raw_bits)
      = decodeOpCode ((OpAndCmp.from_raw_bits (5 <<< 28)).raw_bits) :=
    congrArg decodeOpCode hEq
  rw [show decodeOpCode ((OpAndCmp.from_raw_bits (5 <<< 28)).raw_bits) = 5
    from by decide] at hcode
  have : o = 5 := by
    rw [← hcode]
    exact (pack_opCode o c a b hc16 ha hb).symm
  simp [validOpCodes, this] at ho

/-- Witness for C10: the word 42 round-trips. -/
theorem from_raw_bits_roundtrip_witness :
    (OpAndCmp.from_raw_bits 42).raw_bits = 42 :=
  from_raw_bits_roundtrip.1 42 (by norm_num)
